import Mathlib

/-
  Shallow embedding of the derivative-cache request pipeline of the
  image-optimization repository.

  Embedded source files:
  - src/functions/image-optimization/index.ts  (image handler with trust check)
  - src/unnamed/part_004 (first document)      (AWS-sample style image handler:
    operation parsing, derivative key construction, size-based delivery policy)
  - src/functions/video-thumbnail/index.ts     (two video handlers: the first
    without a cache probe, the second with a HeadObject cache probe)

  The S3 store, the sharp image library and the ffmpeg subprocess are external
  capabilities; each call site receives the outcome of its single call as an
  explicit oracle argument (the handlers perform at most one call per site per
  request).  Every handler additionally returns the ordered list of external
  effects it attempted, so that claims of the form "rejected before any store
  access" and "no decode invoked" are statements about the effect trace.
-/

deriving instance DecidableEq for Except

namespace ImageOpt

/-- Split a character list at every occurrence of the separator, keeping
empty pieces, exactly as the JavaScript single-character split does. -/
def splitOnCharList (sep : Char) : List Char → List (List Char)
  | [] => [[]]
  | c :: rest =>
    if c = sep then [] :: splitOnCharList sep rest
    else
      match splitOnCharList sep rest with
      | [] => [[c]]
      | h :: t => (c :: h) :: t

/-- JavaScript s.split(sep) for a single-character separator. -/
def strSplit (sep : Char) (s : String) : List String :=
  (splitOnCharList sep s.data).map (fun cs => String.mk cs)

/-- JavaScript parts.join(sep). -/
def strJoin (sep : String) : List String → String
  | [] => ""
  | [x] => x
  | x :: xs => x ++ sep ++ strJoin sep xs

/-- JavaScript s.substring(1). -/
def strDrop1 (s : String) : String :=
  String.mk (s.data.drop 1)

/-- JavaScript s.includes(c) for a single character. -/
def strContainsChar (s : String) (c : Char) : Bool :=
  s.data.any (fun d => d = c)

/-- A JavaScript number as the parsers produce it: NaN or an integer
(parseInt never yields a fraction). -/
inductive JsNum
  | nan
  | int (v : Int)
deriving DecidableEq

/-- JavaScript truthiness of a number: NaN and 0 are falsy. -/
def JsNum.truthy : JsNum → Bool
  | .nan => false
  | .int v => v != 0

/-- Truthiness of an optional number (undefined is falsy). -/
def jsTruthyOpt : Option JsNum → Bool
  | some n => n.truthy
  | none => false

/-- Truthiness of an optional string (undefined and the empty string are falsy). -/
def optStrTruthy : Option String → Bool
  | some s => s != ""
  | none => false

/-- JavaScript `x || d` on an optional number, where undefined, NaN and 0 all
fall through to the default. -/
def jsNumOr (x : Option JsNum) (d : Int) : Int :=
  match x with
  | some (.int v) => if v = 0 then d else v
  | _ => d

/-- JavaScript `s || d` for an optional string. -/
def jsStrOr (x : Option String) (d : String) : String :=
  match x with
  | some s => if s = "" then d else s
  | none => d

/-- JavaScript parseInt restricted to base 10: optional sign, then the longest
prefix of decimal digits; no digits gives NaN. -/
def jsParseInt (s : String) : JsNum :=
  let cs := s.data
  let signed : Bool × List Char :=
    match cs with
    | '-' :: t => (true, t)
    | '+' :: t => (false, t)
    | t => (false, t)
  let ds := signed.2.takeWhile Char.isDigit
  if ds.isEmpty then .nan
  else
    let n : Nat := ds.foldl (fun a c => a * 10 + (c.toNat - 48)) 0
    .int (if signed.1 then -(n : Int) else (n : Int))

/-- External-effect tags attempted by a handler, in program order.  A put
records the derivative key it targets. -/
inductive Eff
  | s3Get
  | s3Head
  | s3Put (key : String)
  | sharpTransform
  | ffmpegDecode
deriving DecidableEq

/-- The error field of the JSON body produced by sendError in part_004:
either a string (possibly the Unknown-error fallback) or the serialized raw
event object. -/
inductive ErrField
  | str (s : String)
  | eventObject
deriving DecidableEq

/-- Response bodies, kept structural: error JSON shapes and the three success
payload shapes (image handler artifact, part_004 artifact of a given byte
length, video thumbnail JPEG). -/
inductive RespBody
  | empty
  | jsonError (error : String)
  | jsonMessageError (message : String) (err : ErrField)
  | base64Img (fmt : String) (quality : Option Int) (resized : Bool)
  | artifactB (size : Nat)
  | thumbJpeg
deriving DecidableEq

/-- A Lambda proxy response as the handlers build it.  The Server-Timing
header of part_004 carries wall-clock durations and is elided. -/
structure Response where
  statusCode : Nat
  contentType : Option String := none
  cacheControl : Option String := none
  location : Option String := none
  body : RespBody := .empty
  isBase64Encoded : Bool := false
deriving DecidableEq

/-- The static project route table from src/config/projects.ts. -/
def PROJECT_BUCKETS (p : String) : Option String :=
  if p = "geerly" then some "geerly-cms-content"
  else if p = "farmify" then some "files-farmify"
  else if p = "sopilot" then some "files-sopilot"
  else none

/-! ## src/functions/image-optimization/index.ts -/

/-- The fields of the inbound event that the image-optimization handler
reads: the x-origin-verify header, pathParameters.proxy, and the w/h/q
query parameters. -/
structure IOEvent where
  originVerify : Option String
  proxyPath : Option String
  w : Option String
  h : Option String
  q : Option String
deriving DecidableEq

/-- The structured request produced by parseRequest (index.ts lines 8-14). -/
structure ParsedRequest where
  projectName : String
  imagePath : String
  width : Option JsNum
  height : Option JsNum
  quality : Option JsNum
deriving DecidableEq

/-- The path decomposition inside parseRequest (index.ts lines 18-27):
split on slash, need a project segment plus at least one further segment,
both non-empty after joining. -/
def parsePathA (path : String) : Option (String × String) :=
  if path = "" then none
  else
    let parts := strSplit '/' path
    if parts.length < 2 then none
    else
      let projectName := parts.headD ""
      let imagePath := strJoin "/" (parts.drop 1)
      if projectName = "" ∨ imagePath = "" then none
      else some (projectName, imagePath)

/-- parseRequest (index.ts lines 16-40).  Query parameters are read with
JavaScript truthiness and parseInt; a non-numeric value becomes NaN. -/
def parseRequest (e : IOEvent) : Option ParsedRequest :=
  match parsePathA (e.proxyPath.getD "") with
  | none => none
  | some (projectName, imagePath) =>
    some { projectName, imagePath,
           width := if optStrTruthy e.w then some (jsParseInt (e.w.getD "")) else none,
           height := if optStrTruthy e.h then some (jsParseInt (e.h.getD "")) else none,
           quality := if optStrTruthy e.q then some (jsParseInt (e.q.getD "")) else none }

/-- A source object as sharp sees it: the format its metadata reports
(none when undetectable) and whether the sharp pipeline throws on it. -/
structure SrcImg where
  fmt : Option String
  sharpFails : Bool
deriving DecidableEq

/-- The outcome of the single GetObjectCommand of getImageFromS3. -/
inductive S3GetResult
  | ok (img : SrcImg)
  | okNoBody
  | errNoSuchKey
  | errNotFound
  | errNoSuchBucket
  | errAccessDenied
  | errOther (msg : String)
deriving DecidableEq

/-- getImageFromS3 (index.ts lines 42-67): NoSuchKey and NotFound become
null, NoSuchBucket and AccessDenied become tagged thrown errors, anything
else is rethrown raw (its message propagates). -/
def getImageFromS3 : S3GetResult → Except String (Option SrcImg)
  | .ok img => .ok (some img)
  | .okNoBody => .ok none
  | .errNoSuchKey => .ok none
  | .errNotFound => .ok none
  | .errNoSuchBucket => .error "STORAGE_CONFIG_ERROR"
  | .errAccessDenied => .error "ACCESS_DENIED"
  | .errOther msg => .error msg

/-- optimizeImage (index.ts lines 69-115).  Validates the detected format,
marks a resize when width or height is truthy, applies the JavaScript
default quality || 80 and validates it against [1,100], then encodes to the
SOURCE format (gif takes no quality).  Any other sharp fault becomes
OPTIMIZATION_FAILED. -/
def optimizeImage (img : SrcImg) (width height quality : Option JsNum) :
    Except String (String × Option Int × Bool) :=
  if img.sharpFails then .error "OPTIMIZATION_FAILED"
  else match img.fmt with
  | none => .error "UNSUPPORTED_FORMAT"
  | some f =>
    if ¬ (f = "jpeg" ∨ f = "png" ∨ f = "webp" ∨ f = "gif") then
      .error "UNSUPPORTED_FORMAT"
    else
      let resized := jsTruthyOpt width || jsTruthyOpt height
      let outputQuality := jsNumOr quality 80
      if outputQuality < 1 ∨ outputQuality > 100 then .error "INVALID_QUALITY"
      else if f = "jpeg" then .ok ("jpeg", some outputQuality, resized)
      else if f = "png" then .ok ("png", some outputQuality, resized)
      else if f = "webp" then .ok ("webp", some outputQuality, resized)
      else .ok ("gif", none, resized)

/-- The catch switch of the handler (index.ts lines 171-206), keyed on the
message string of the thrown error. -/
def mapErrorA (m : String) : Response :=
  if m = "STORAGE_CONFIG_ERROR" then
    { statusCode := 503, body := .jsonError "Storage configuration error" }
  else if m = "ACCESS_DENIED" then
    { statusCode := 403, body := .jsonError "Access denied to image storage" }
  else if m = "UNSUPPORTED_FORMAT" then
    { statusCode := 415, body := .jsonError "Unsupported image format" }
  else if m = "INVALID_QUALITY" then
    { statusCode := 400,
      body := .jsonError "Invalid quality parameter (must be between 1 and 100)" }
  else if m = "OPTIMIZATION_FAILED" then
    { statusCode := 500, body := .jsonError "Failed to optimize image" }
  else
    { statusCode := 500, body := .jsonError "Internal server error" }

/-- The image-optimization handler (index.ts lines 117-207).  envTTL is the
transformedImageCacheTTL environment variable; getRes is the outcome of the
single S3 get the handler can attempt. -/
def imageOptHandler (envTTL : Option String) (getRes : S3GetResult)
    (e : IOEvent) : Response × List Eff :=
  if ¬ (e.originVerify = some "cloudfront") then
    ({ statusCode := 403, body := .jsonError "Access denied" }, [])
  else
    match parseRequest e with
    | none => ({ statusCode := 400, body := .jsonError "Invalid request format" }, [])
    | some r =>
      match PROJECT_BUCKETS r.projectName with
      | none => ({ statusCode := 404, body := .jsonError "Project not found" }, [])
      | some _bucket =>
        match getImageFromS3 getRes with
        | .error m => (mapErrorA m, [.s3Get])
        | .ok none => ({ statusCode := 404, body := .jsonError "Image not found" }, [.s3Get])
        | .ok (some img) =>
          match optimizeImage img r.width r.height r.quality with
          | .error m => (mapErrorA m, [.s3Get, .sharpTransform])
          | .ok (fmt, qual, resized) =>
            ({ statusCode := 200,
               contentType := some "image/jpeg",
               cacheControl := some (jsStrOr envTTL "public, max-age=31536000"),
               body := .base64Img fmt qual resized,
               isBase64Encoded := true }, [.s3Get, .sharpTransform])

/-! ## src/unnamed/part_004, first document (AWS-sample style image handler) -/

/-- JavaScript Object.fromEntries insertion semantics over string keys:
first occurrence fixes the position, a later duplicate overwrites the value
in place. -/
def upsert (acc : List (String × Option String)) (k : String)
    (v : Option String) : List (String × Option String) :=
  if acc.any (fun p => p.1 = k) then
    acc.map (fun p => if p.1 = k then (k, v) else p)
  else acc ++ [(k, v)]

/-- Object.fromEntries over a list of entries. -/
def fromEntries (l : List (String × Option String)) :
    List (String × Option String) :=
  l.foldl (fun acc p => upsert acc p.1 p.2) []

/-- One comma-separated operation: split on the equals sign; a missing value
is the JavaScript undefined, extra pieces are dropped by fromEntries. -/
def splitPair (s : String) : String × Option String :=
  match strSplit '=' s with
  | [] => ("", none)
  | [k] => (k, none)
  | k :: v :: _ => (k, some v)

/-- Parsing of the trailing operations segment (part_004 line 48):
split on comma, split each pair on equals, Object.fromEntries.  (The
surrounding try/catch is dead: these string operations cannot throw.) -/
def parseOperations (s : String) : List (String × Option String) :=
  fromEntries ((strSplit ',' s).map splitPair)

/-- Lookup of operations[k]: undefined when the key is absent. -/
def opGet (ops : List (String × Option String)) (k : String) : Option String :=
  match ops.find? (fun p => p.1 = k) with
  | some p => p.2
  | none => none

/-- Truthiness of operations[k]: present with a non-empty string value. -/
def opTruthy (ops : List (String × Option String)) (k : String) : Bool :=
  match opGet ops k with
  | some v => v != ""
  | none => false

/-- The serialization Object.entries(operations).map k=v join comma used at
the PutObjectCommand key and at the redirect Location (part_004 lines 122
and 133); an undefined value prints as the string undefined. -/
def opsSerial (ops : List (String × Option String)) : String :=
  strJoin "," (ops.map (fun p => p.1 ++ "=" ++ p.2.getD "undefined"))

/-- The derivative storage key of the PutObjectCommand (part_004 line 122):
the image path, a slash, then the operations serialized in insertion
order. -/
def buildKey (imagePath : String) (ops : List (String × Option String)) :
    String :=
  imagePath ++ "/" ++ opsSerial ops

/-- sendError of part_004 (lines 158-167) with a string (or empty, hence
falsy) error detail. -/
def sendErrorStr (code : Nat) (message errDetail : String) : Response :=
  { statusCode := code,
    body := .jsonMessageError message
      (.str (if errDetail = "" then "Unknown error" else errDetail)) }

/-- sendError of part_004 called with a null error detail. -/
def sendErrorNull (code : Nat) (message : String) : Response :=
  { statusCode := code, body := .jsonMessageError message (.str "Unknown error") }

/-- sendError of part_004 called with the raw event as the error detail
(the 400 on non-GET requests). -/
def sendErrorEvent (code : Nat) (message : String) : Response :=
  { statusCode := code, body := .jsonMessageError message .eventObject }

/-- Path validation and operation extraction of part_004 (lines 28-57),
with each early-return 400 as an error value. -/
def validatePathB (path : String) :
    Except Response (String × List (String × Option String)) :=
  if path = "" ∨ path = "/" then
    .error (sendErrorNull 400 "Invalid request: no image path provided")
  else
    let pathParts := strSplit '/' (strDrop1 path)
    if pathParts.length < 1 then
      .error (sendErrorNull 400 "Invalid request: malformed image path")
    else
      let hasOps := strContainsChar (pathParts.getLastD "") '='
      let imagePath :=
        if hasOps then strJoin "/" pathParts.dropLast
        else strJoin "/" pathParts
      let operations := if hasOps then parseOperations (pathParts.getLastD "") else []
      if imagePath = "" then
        .error (sendErrorNull 400 "Invalid request: no image path after operations")
      else .ok (imagePath, operations)

/-- The content-type switch on the format operation (part_004 lines 87-105):
an unrecognized requested format defaults to image/jpeg; with no format
operation, an svg source content type becomes image/png. -/
def contentTypeB (ct0 : Option String) (ops : List (String × Option String)) :
    Option String :=
  if opTruthy ops "format" then
    let v := (opGet ops "format").getD ""
    some (if v = "jpeg" then "image/jpeg"
      else if v = "gif" then "image/gif"
      else if v = "webp" then "image/webp"
      else if v = "png" then "image/png"
      else if v = "avif" then "image/avif"
      else "image/jpeg")
  else if ct0 = some "image/svg+xml" then some "image/png"
  else ct0

/-- The environment of the part_004 handler. -/
structure EnvB where
  transformedBucket : Option String
  maxImageSize : Int
  cacheTTL : Option String
deriving DecidableEq

/-- The fields of the inbound event that the part_004 handler reads. -/
structure EventB where
  isGet : Bool
  originVerify : Option String
  path : String
deriving DecidableEq

/-- The original object as the part_004 handler sees it: only its S3
content type matters to the control flow. -/
structure ObjB where
  contentType : Option String
deriving DecidableEq

/-- The part_004 handler (lines 13-157).  getRes is the outcome of the
original-image GetObjectCommand (any failure carries its message and is
mapped to 404); sharpRes is the outcome of the sharp pipeline (failure
message, or the byte length of the transformed buffer); putOk is whether
the PutObjectCommand succeeds.  Delivery policy: a put is attempted
whenever a transformed bucket is configured; an oversized artifact is
served as a 302 to its location if the put succeeded, as a 403 if not;
otherwise the artifact is inlined with status 200. -/
def handlerB (env : EnvB) (e : EventB) (getRes : Except String ObjB)
    (sharpRes : Except String Nat) (putOk : Bool) : Response × List Eff :=
  if ¬ e.isGet then
    (sendErrorEvent 400 "Only GET method is supported", [])
  else if ¬ (e.originVerify = some "cloudfront") then
    (sendErrorStr 403 "Unauthorized" "Request not from CloudFront", [])
  else
    match validatePathB e.path with
    | .error resp => (resp, [])
    | .ok (imagePath, operations) =>
      match getRes with
      | .error msg => (sendErrorStr 404 ("Image not found: " ++ imagePath) msg, [.s3Get])
      | .ok obj =>
        match sharpRes with
        | .error msg =>
          (sendErrorStr 500 "error transforming image" msg, [.s3Get, .sharpTransform])
        | .ok sz =>
          let ct := contentTypeB obj.contentType operations
          let imageTooBig : Bool := (sz : Int) > env.maxImageSize
          let inlineResp : Response :=
            { statusCode := 200, contentType := ct, cacheControl := env.cacheTTL,
              body := .artifactB sz, isBase64Encoded := true }
          let tooBigResp : Response :=
            sendErrorStr 403 "Requested transformed image is too big" ""
          match env.transformedBucket with
          | some _ =>
            let key := buildKey imagePath operations
            let effs := [Eff.s3Get, Eff.sharpTransform, Eff.s3Put key]
            if putOk then
              if imageTooBig then
                ({ statusCode := 302,
                   location := some ("/" ++ imagePath ++ "?" ++ opsSerial operations),
                   cacheControl := some "private,no-store" }, effs)
              else (inlineResp, effs)
            else
              if imageTooBig then (tooBigResp, effs)
              else (inlineResp, effs)
          | none =>
            if imageTooBig then (tooBigResp, [.s3Get, .sharpTransform])
            else (inlineResp, [.s3Get, .sharpTransform])

/-! ## src/functions/video-thumbnail/index.ts, first handler (lines 207-273) -/

/-- The fields of the inbound event that the first video handler reads.
The x-origin-verify header is part of the event but this handler never
reads it. -/
structure VEvent where
  originVerify : Option String
  proxyPath : Option String
deriving DecidableEq

/-- parseRequest of the first video handler (lines 192-205): identical path
decomposition to the image handler, fields projectName and videoPath. -/
def parseRequestVideo (e : VEvent) : Option (String × String) :=
  parsePathA (e.proxyPath.getD "")

/-- The outcome of the single GetObjectCommand of getVideoFromS3. -/
inductive VideoGetResult
  | ok
  | errNoSuchKey
  | errNotFound
  | errNoSuchBucket
  | errAccessDenied
  | errOther (msg : String)
deriving DecidableEq

/-- getVideoFromS3 (lines 59-82): NoSuchKey and NotFound become null,
NoSuchBucket and AccessDenied become tagged thrown errors, anything else is
rethrown raw. -/
def getVideoFromS3 : VideoGetResult → Except String (Option Unit)
  | .ok => .ok (some ())
  | .errNoSuchKey => .ok none
  | .errNotFound => .ok none
  | .errNoSuchBucket => .error "Storage configuration error"
  | .errAccessDenied => .error "Access denied to video storage"
  | .errOther msg => .error msg

/-- The catch branch of the first video handler (lines 250-272), keyed on
the message string of the thrown error. -/
def mapErrorVideo1 (m : String) : Response :=
  if m = "Storage configuration error" then
    { statusCode := 503, body := .jsonError "Service configuration error" }
  else if m = "Access denied to video storage" then
    { statusCode := 403, body := .jsonError "Access denied" }
  else
    { statusCode := 500, body := .jsonError "Internal server error" }

/-- The first video-thumbnail handler (lines 207-273).  genRes is the
outcome of the ffmpeg thumbnail generation (a rejection message on a
non-zero exit).  The handler performs no trust-header check and no cache
probe; a parse failure is answered with 404. -/
def videoHandler1 (e : VEvent) (getRes : VideoGetResult)
    (genRes : Except String Unit) : Response × List Eff :=
  match parseRequestVideo e with
  | none => ({ statusCode := 404, body := .jsonError "Invalid path format" }, [])
  | some (projectName, _videoPath) =>
    match PROJECT_BUCKETS projectName with
    | none => ({ statusCode := 404, body := .jsonError "Project not found" }, [])
    | some _bucket =>
      match getVideoFromS3 getRes with
      | .error m => (mapErrorVideo1 m, [.s3Get])
      | .ok none => ({ statusCode := 404, body := .jsonError "Video not found" }, [.s3Get])
      | .ok (some _) =>
        match genRes with
        | .error m => (mapErrorVideo1 m, [.s3Get, .ffmpegDecode])
        | .ok _ =>
          ({ statusCode := 200,
             contentType := some "image/jpeg",
             cacheControl := some "public, max-age=31536000",
             body := .thumbJpeg }, [.s3Get, .ffmpegDecode])

/-! ## src/functions/video-thumbnail/index.ts, second handler (lines 464-548) -/

/-- The fields of the inbound event that the second video handler reads. -/
structure V2Event where
  rawPath : Option String
  rawQueryString : Option String
deriving DecidableEq

/-- The outcome of the HeadObjectCommand of checkThumbnailExists
(lines 310-323): found, NotFound, or any other error (rethrown). -/
inductive HeadResult
  | found
  | errNotFound
  | errOther (msg : String)
deriving DecidableEq

/-- The outcome of the GetObjectCommand of the second getVideoFromS3
(lines 333-346): only NoSuchKey becomes null, everything else is
rethrown. -/
inductive V2GetResult
  | ok
  | errNoSuchKey
  | errOther (msg : String)
deriving DecidableEq

/-- The path decomposition of the second video handler (lines 467-478):
drop the leading slash, split on slash, project first, remainder joined.
There is no minimum-segment check beyond the dead length test, so the
video path may come out empty. -/
def v2Parse (rawPath : String) : String × String :=
  let parts := strSplit '/' (strDrop1 rawPath)
  (parts.headD "", strJoin "/" (parts.drop 1))

/-- The redirect URL of the second video handler (lines 489-494). -/
def v2RedirectUrl (projectName videoPath : String)
    (rawQueryString : Option String) : String :=
  let thumbnailKey := "thumbnails/" ++ videoPath ++ ".jpg"
  let queryString :=
    match rawQueryString with
    | some q => if q = "" then "" else "?" ++ q
    | none => ""
  "https://image.boilingkettle.co/" ++ projectName ++ "/" ++ thumbnailKey ++ queryString

/-- The second video-thumbnail handler (lines 464-548).  A missing rawPath
makes the first property access throw, landing in the catch-all 500.  On a
cache-probe hit the handler redirects without touching the video or the
decoder; on a miss it fetches, decodes, uploads (the PutObjectCommand is
NOT wrapped: a put failure falls to the catch-all 500) and redirects. -/
def videoHandler2 (e : V2Event) (headRes : HeadResult) (getRes : V2GetResult)
    (genRes : Except String Unit) (putOk : Bool) : Response × List Eff :=
  match e.rawPath with
  | none => ({ statusCode := 500, body := .jsonError "Error processing video" }, [])
  | some rp =>
    let parts := strSplit '/' (strDrop1 rp)
    if parts.length < 1 then
      ({ statusCode := 400,
         body := .jsonError "Invalid path format. Expected: \x7bproject\x7d/path/to/video" }, [])
    else
      let projectName := (v2Parse rp).1
      let videoPath := (v2Parse rp).2
      match PROJECT_BUCKETS projectName with
      | none =>
        ({ statusCode := 404,
           body := .jsonError ("Project '" ++ projectName ++ "' not found") }, [])
      | some _bucket =>
        let thumbnailKey := "thumbnails/" ++ videoPath ++ ".jpg"
        let redirectUrl := v2RedirectUrl projectName videoPath e.rawQueryString
        match headRes with
        | .errOther _ =>
          ({ statusCode := 500, body := .jsonError "Error processing video" }, [.s3Head])
        | .found =>
          ({ statusCode := 302, location := some redirectUrl,
             cacheControl := some "public, max-age=31536000" }, [.s3Head])
        | .errNotFound =>
          match getRes with
          | .errNoSuchKey =>
            ({ statusCode := 404,
               body := .jsonError ("Video not found: " ++ videoPath) }, [.s3Head, .s3Get])
          | .errOther _ =>
            ({ statusCode := 500, body := .jsonError "Error processing video" },
             [.s3Head, .s3Get])
          | .ok =>
            match genRes with
            | .error _ =>
              ({ statusCode := 500, body := .jsonError "Error processing video" },
               [.s3Head, .s3Get, .ffmpegDecode])
            | .ok _ =>
              if putOk then
                ({ statusCode := 302, location := some redirectUrl,
                   cacheControl := some "public, max-age=31536000" },
                 [.s3Head, .s3Get, .ffmpegDecode, .s3Put thumbnailKey])
              else
                ({ statusCode := 500, body := .jsonError "Error processing video" },
                 [.s3Head, .s3Get, .ffmpegDecode, .s3Put thumbnailKey])

/-! ## Helper lemmas -/

/-- A JavaScript split always yields at least one piece. -/
theorem splitOnCharList_ne_nil (sep : Char) (cs : List Char) :
    splitOnCharList sep cs ≠ [] := by
  cases cs with
  | nil => simp [splitOnCharList]
  | cons c rest =>
    simp only [splitOnCharList]
    split
    · simp
    · split <;> simp

/-- The error switch of the image-optimization handler never answers 200. -/
theorem mapErrorA_statusCode_ne (m : String) : (mapErrorA m).statusCode ≠ 200 := by
  unfold mapErrorA
  repeat' split
  all_goals simp

/-! ## Claims -/

/-- C1: the claim states that the derivative key builder canonicalizes the
operation order before serializing, so that the two insertion orders of
width=300 and format=webp yield the identical storage key.  The part_004
handler in fact serializes the operations in request insertion order: on the
two permuted request paths it issues puts under two different derivative
keys, so the claim fails on the code (the spec flags canonicalization as a
required fix against observed behavior). -/
theorem c1_key_not_canonicalized :
    (handlerB ⟨some "transformed-bucket", 10000000, none⟩
        ⟨true, some "cloudfront", "/photos/a.jpg/width=300,format=webp"⟩
        (.ok ⟨none⟩) (.ok 5) true).2 =
      [Eff.s3Get, Eff.sharpTransform, Eff.s3Put "photos/a.jpg/width=300,format=webp"] ∧
    (handlerB ⟨some "transformed-bucket", 10000000, none⟩
        ⟨true, some "cloudfront", "/photos/a.jpg/format=webp,width=300"⟩
        (.ok ⟨none⟩) (.ok 5) true).2 =
      [Eff.s3Get, Eff.sharpTransform, Eff.s3Put "photos/a.jpg/format=webp,width=300"] ∧
    buildKey "photos/a.jpg" (parseOperations "width=300,format=webp") ≠
      buildKey "photos/a.jpg" (parseOperations "format=webp,width=300") :=
  ⟨by decide, by decide, by decide⟩

/-- C2 (amended): the image-optimization handler answers 403 with no store
access for every request whose x-origin-verify header is absent or differs
from cloudfront, whatever the store would answer; the video-thumbnail
handler, however, performs no trust-header check at all. -/
theorem c2_image_trust_check (envTTL : Option String) (getRes : S3GetResult)
    (e : IOEvent) (h : ¬ e.originVerify = some "cloudfront") :
    imageOptHandler envTTL getRes e =
      ({ statusCode := 403, body := .jsonError "Access denied" }, []) := by
  simp [imageOptHandler, h]

/-- C2 witness: a concrete headerless request is refused with 403 before
any store access. -/
theorem c2_image_trust_check_witness :
    imageOptHandler none S3GetResult.errNoSuchKey
        ⟨none, some "geerly/pic.jpg", none, none, none⟩ =
      ({ statusCode := 403, body := .jsonError "Access denied" }, []) :=
  c2_image_trust_check none S3GetResult.errNoSuchKey
    ⟨none, some "geerly/pic.jpg", none, none, none⟩ (by decide)

/-- C2 counterexample: the first video-thumbnail handler serves a request
whose trust header is absent with 200, not 403 (it never reads the
header). -/
theorem c2_video_no_trust_check :
    (videoHandler1 ⟨none, some "geerly/clips/a.mp4"⟩ .ok (.ok ())).1.statusCode = 200 ∧
    (videoHandler1 ⟨none, some "geerly/clips/a.mp4"⟩ .ok (.ok ())).1.statusCode ≠ 403 :=
  ⟨by decide, by decide⟩

/-- C7 (amended): for a request that passes the trust check but whose path
does not decompose into a project plus at least one further segment, the
image-optimization handler answers 400 with no store access; the
video-thumbnail handler also rejects before any store access but with
status 404. -/
theorem c7_image_malformed_400 (envTTL : Option String) (getRes : S3GetResult)
    (e : IOEvent) (ho : e.originVerify = some "cloudfront")
    (hp : parseRequest e = none) :
    imageOptHandler envTTL getRes e =
      ({ statusCode := 400, body := .jsonError "Invalid request format" }, []) := by
  simp [imageOptHandler, ho, hp]

/-- C7 witness: a concrete single-segment path is refused with 400 before
any store access. -/
theorem c7_image_malformed_400_witness :
    imageOptHandler none S3GetResult.errNoSuchKey
        ⟨some "cloudfront", some "geerly", none, none, none⟩ =
      ({ statusCode := 400, body := .jsonError "Invalid request format" }, []) :=
  c7_image_malformed_400 none S3GetResult.errNoSuchKey
    ⟨some "cloudfront", some "geerly", none, none, none⟩ (by decide) (by decide)

/-- C7 counterexample: the first video-thumbnail handler rejects the same
kind of malformed path with status 404, not 400 (still before any store
access). -/
theorem c7_video_malformed_404 :
    videoHandler1 ⟨some "cloudfront", some "geerly"⟩ .ok (.ok ()) =
      ({ statusCode := 404, body := .jsonError "Invalid path format" }, []) ∧
    (videoHandler1 ⟨some "cloudfront", some "geerly"⟩ .ok (.ok ())).1.statusCode ≠ 400 :=
  ⟨by decide, by decide⟩

/-- C5 (amended): in the part_004 image handler a derivative-write failure
is swallowed when the computed artifact fits the inline limit: the response
is identical to the write-success response, status 200 with the freshly
computed artifact.  (For an oversized artifact the write failure changes
the response from 302 to 403, and in the second video-thumbnail handler a
write failure is fatal with 500.) -/
theorem c5_image_write_failure_swallowed (env : EnvB) (e : EventB) (obj : ObjB)
    (sz : Nat) (imagePath : String) (ops : List (String × Option String)) (bkt : String)
    (hget : e.isGet = true) (ho : e.originVerify = some "cloudfront")
    (hp : validatePathB e.path = .ok (imagePath, ops))
    (hb : env.transformedBucket = some bkt)
    (hsz : (sz : Int) ≤ env.maxImageSize) :
    (handlerB env e (.ok obj) (.ok sz) false).1 =
      (handlerB env e (.ok obj) (.ok sz) true).1 ∧
    (handlerB env e (.ok obj) (.ok sz) false).1.statusCode = 200 ∧
    (handlerB env e (.ok obj) (.ok sz) false).1.body = .artifactB sz := by
  have hbig : ¬ ((sz : Int) > env.maxImageSize) := not_lt.mpr hsz
  simp [handlerB, hget, ho, hp, hb, hbig]

/-- C5 witness: a concrete in-limit artifact is served with 200 whether or
not the derivative write succeeded. -/
theorem c5_image_write_failure_swallowed_witness :
    (handlerB ⟨some "tb", 10000000, none⟩ ⟨true, some "cloudfront", "/photos/a.jpg"⟩
        (.ok ⟨none⟩) (.ok 5) false).1.statusCode = 200 :=
  (c5_image_write_failure_swallowed ⟨some "tb", 10000000, none⟩
    ⟨true, some "cloudfront", "/photos/a.jpg"⟩ ⟨none⟩ 5 "photos/a.jpg" [] "tb"
    rfl rfl (by decide) rfl (by decide)).2.1

/-- C5 counterexample: in the second video-thumbnail handler the
PutObjectCommand is not wrapped, so on the same request a write failure
turns the 302 success response into a 500 error: the freshly computed
thumbnail is not returned and the write failure is not swallowed. -/
theorem c5_video_write_failure_fatal :
    (videoHandler2 ⟨some "/geerly/clips/a.mp4", none⟩ .errNotFound .ok (.ok ()) false).1.statusCode = 500 ∧
    (videoHandler2 ⟨some "/geerly/clips/a.mp4", none⟩ .errNotFound .ok (.ok ()) true).1.statusCode = 302 ∧
    (videoHandler2 ⟨some "/geerly/clips/a.mp4", none⟩ .errNotFound .ok (.ok ()) false).1.body =
      .jsonError "Error processing video" :=
  ⟨by decide, by decide, by decide⟩

/-- C3: the source fetcher classifies every store failure and the handler
maps it to the claimed client status: object absent (NoSuchKey or NotFound)
gives 404, bucket absent gives 503, access denied gives 403, and any other
store fault (whose raw message is none of the handler sentinel strings)
gives 500 with the stable body, never the raw error text. -/
theorem c3_fetch_error_taxonomy (envTTL : Option String) (e : IOEvent)
    (r : ParsedRequest) (b msg : String)
    (ho : e.originVerify = some "cloudfront")
    (hp : parseRequest e = some r)
    (hb : PROJECT_BUCKETS r.projectName = some b)
    (h1 : msg ≠ "STORAGE_CONFIG_ERROR") (h2 : msg ≠ "ACCESS_DENIED")
    (h3 : msg ≠ "UNSUPPORTED_FORMAT") (h4 : msg ≠ "INVALID_QUALITY")
    (h5 : msg ≠ "OPTIMIZATION_FAILED") :
    (imageOptHandler envTTL .errNoSuchKey e).1.statusCode = 404 ∧
    (imageOptHandler envTTL .errNotFound e).1.statusCode = 404 ∧
    (imageOptHandler envTTL .errNoSuchBucket e).1.statusCode = 503 ∧
    (imageOptHandler envTTL .errAccessDenied e).1.statusCode = 403 ∧
    (imageOptHandler envTTL (.errOther msg) e).1.statusCode = 500 ∧
    (imageOptHandler envTTL (.errOther msg) e).1.body =
      .jsonError "Internal server error" := by
  simp [imageOptHandler, ho, hp, hb, getImageFromS3, mapErrorA, h1, h2, h3, h4, h5]

/-- C3 witness: a concrete valid request against a missing bucket is
answered 503. -/
theorem c3_fetch_error_taxonomy_witness :
    (imageOptHandler none S3GetResult.errNoSuchBucket
      ⟨some "cloudfront", some "geerly/pic.jpg", none, none, none⟩).1.statusCode = 503 :=
  (c3_fetch_error_taxonomy none ⟨some "cloudfront", some "geerly/pic.jpg", none, none, none⟩
    ⟨"geerly", "pic.jpg", none, none, none⟩ "geerly-cms-content" "SlowDown"
    rfl (by decide) (by decide) (by decide) (by decide) (by decide) (by decide)
    (by decide)).2.2.1

/-- C4: the part_004 delivery policy, with a derivative bucket configured:
an artifact whose byte length is at most the inline limit is returned
inline with status 200 regardless of the write outcome (so equality is
inline); an oversized artifact is answered 302 to the derivative location
when the write succeeded and 403 TooLarge when the write failed. -/
theorem c4_delivery_policy (env : EnvB) (e : EventB) (obj : ObjB) (sz : Nat)
    (putOk : Bool) (imagePath : String) (ops : List (String × Option String))
    (bkt : String)
    (hget : e.isGet = true) (ho : e.originVerify = some "cloudfront")
    (hp : validatePathB e.path = .ok (imagePath, ops))
    (hb : env.transformedBucket = some bkt) :
    ((sz : Int) ≤ env.maxImageSize →
      (handlerB env e (.ok obj) (.ok sz) putOk).1.statusCode = 200 ∧
      (handlerB env e (.ok obj) (.ok sz) putOk).1.body = .artifactB sz) ∧
    (env.maxImageSize < (sz : Int) →
      (handlerB env e (.ok obj) (.ok sz) true).1.statusCode = 302 ∧
      (handlerB env e (.ok obj) (.ok sz) true).1.location =
        some ("/" ++ imagePath ++ "?" ++ opsSerial ops)) ∧
    (env.maxImageSize < (sz : Int) →
      (handlerB env e (.ok obj) (.ok sz) false).1.statusCode = 403 ∧
      (handlerB env e (.ok obj) (.ok sz) false).1.body =
        .jsonMessageError "Requested transformed image is too big"
          (.str "Unknown error")) := by
  refine ⟨fun hsz => ?_, fun hsz => ?_, fun hsz => ?_⟩
  · have hbig : ¬ ((sz : Int) > env.maxImageSize) := not_lt.mpr hsz
    simp [handlerB, hget, ho, hp, hb, hbig]
  · simp [handlerB, hget, ho, hp, hb, hsz]
  · simp [handlerB, hget, ho, hp, hb, hsz, sendErrorStr]

/-- C4 witness: with an inline limit of 100 bytes, a 100-byte artifact is
inlined with 200 even though the write failed, a 101-byte artifact
redirects with 302 when the write succeeded, and gives 403 when the write
failed. -/
theorem c4_delivery_policy_witness :
    ((handlerB ⟨some "tb", 100, none⟩ ⟨true, some "cloudfront", "/photos/a.jpg"⟩
        (.ok ⟨none⟩) (.ok 100) false).1.statusCode = 200) ∧
    ((handlerB ⟨some "tb", 100, none⟩ ⟨true, some "cloudfront", "/photos/a.jpg"⟩
        (.ok ⟨none⟩) (.ok 101) true).1.statusCode = 302) ∧
    ((handlerB ⟨some "tb", 100, none⟩ ⟨true, some "cloudfront", "/photos/a.jpg"⟩
        (.ok ⟨none⟩) (.ok 101) false).1.statusCode = 403) :=
  ⟨((c4_delivery_policy ⟨some "tb", 100, none⟩ ⟨true, some "cloudfront", "/photos/a.jpg"⟩
      ⟨none⟩ 100 false "photos/a.jpg" [] "tb" rfl rfl (by decide) rfl).1 (by decide)).1,
   ((c4_delivery_policy ⟨some "tb", 100, none⟩ ⟨true, some "cloudfront", "/photos/a.jpg"⟩
      ⟨none⟩ 101 true "photos/a.jpg" [] "tb" rfl rfl (by decide) rfl).2.1 (by decide)).1,
   ((c4_delivery_policy ⟨some "tb", 100, none⟩ ⟨true, some "cloudfront", "/photos/a.jpg"⟩
      ⟨none⟩ 101 false "photos/a.jpg" [] "tb" rfl rfl (by decide) rfl).2.2 (by decide)).1⟩

/-- C6 (amended): on a decodable jpeg source, a nonzero quality outside
[1,100] fails with INVALID_QUALITY, a quality in [1,100] succeeds and is
used as given (so 1 and 100 succeed and 101 fails), but quality 0 is falsy
in JavaScript and is silently replaced by the default 80, succeeding
instead of failing as the claim states. -/
theorem c6_quality_bounds_amended (img : SrcImg) (w h : Option JsNum) (q : Int)
    (hm : img.sharpFails = false) (hf : img.fmt = some "jpeg") :
    (q ≠ 0 → (q < 1 ∨ 100 < q) →
      optimizeImage img w h (some (.int q)) = .error "INVALID_QUALITY") ∧
    (1 ≤ q → q ≤ 100 →
      optimizeImage img w h (some (.int q)) =
        .ok ("jpeg", some q, jsTruthyOpt w || jsTruthyOpt h)) ∧
    (optimizeImage img w h (some (.int 0)) =
      .ok ("jpeg", some 80, jsTruthyOpt w || jsTruthyOpt h)) := by
  refine ⟨fun h0 hrange => ?_, fun hlo hhi => ?_, ?_⟩
  · have hq : jsNumOr (some (.int q)) 80 = q := by simp [jsNumOr, h0]
    simp only [optimizeImage, hm, hf]
    simp [hq]
    omega
  · have h0 : q ≠ 0 := by omega
    have hq : jsNumOr (some (.int q)) 80 = q := by simp [jsNumOr, h0]
    simp only [optimizeImage, hm, hf]
    simp [hq]
    omega
  · simp [optimizeImage, hm, hf, jsNumOr]

/-- C6 witness: quality 101 fails with INVALID_QUALITY and quality 1
succeeds (claim boundary behavior that does hold). -/
theorem c6_quality_bounds_amended_witness :
    optimizeImage ⟨some "jpeg", false⟩ none none (some (.int 101)) =
      .error "INVALID_QUALITY" ∧
    optimizeImage ⟨some "jpeg", false⟩ none none (some (.int 1)) =
      .ok ("jpeg", some 1, false) :=
  ⟨(c6_quality_bounds_amended ⟨some "jpeg", false⟩ none none 101 rfl rfl).1
      (by decide) (by decide),
   (c6_quality_bounds_amended ⟨some "jpeg", false⟩ none none 1 rfl rfl).2.1
      (by decide) (by decide)⟩

/-- C6 counterexample: quality 0 does not fail with INVALID_QUALITY as the
claim states; it succeeds with the default quality 80 applied. -/
theorem c6_quality_zero_succeeds :
    optimizeImage ⟨some "jpeg", false⟩ none none (some (.int 0)) =
      .ok ("jpeg", some 80, false) ∧
    optimizeImage ⟨some "jpeg", false⟩ none none (some (.int 0)) ≠
      .error "INVALID_QUALITY" :=
  ⟨by decide, by decide⟩

/-- C8: in the second video-thumbnail handler, whenever the cache probe
finds the derivative, the response is a 302 redirect to the derivative
location and the only external effect is the head probe itself: no fetch,
no decode, no write. -/
theorem c8_cache_hit_redirect (e : V2Event) (rp proj vpath bkt : String)
    (getRes : V2GetResult) (genRes : Except String Unit) (putOk : Bool)
    (hrp : e.rawPath = some rp)
    (hparse : v2Parse rp = (proj, vpath))
    (hb : PROJECT_BUCKETS proj = some bkt) :
    (videoHandler2 e .found getRes genRes putOk).1.statusCode = 302 ∧
    (videoHandler2 e .found getRes genRes putOk).1.location =
      some (v2RedirectUrl proj vpath e.rawQueryString) ∧
    (videoHandler2 e .found getRes genRes putOk).2 = [Eff.s3Head] := by
  have hne := splitOnCharList_ne_nil '/' (strDrop1 rp).data
  have hlen : ¬ (strSplit '/' (strDrop1 rp)).length < 1 := by
    simp only [strSplit, List.length_map, Nat.lt_one_iff, List.length_eq_zero]
    exact hne
  simp [videoHandler2, hrp, hparse, hb, hlen]

/-- C8 witness: a concrete cached video request is redirected to its
derivative location with only the head probe performed. -/
theorem c8_cache_hit_redirect_witness :
    (videoHandler2 ⟨some "/geerly/clips/a.mp4", none⟩ .found .ok (.ok ()) true).1.location =
      some "https://image.boilingkettle.co/geerly/thumbnails/clips/a.mp4.jpg" ∧
    (videoHandler2 ⟨some "/geerly/clips/a.mp4", none⟩ .found .ok (.ok ()) true).2 =
      [Eff.s3Head] :=
  ⟨((c8_cache_hit_redirect ⟨some "/geerly/clips/a.mp4", none⟩ "/geerly/clips/a.mp4"
      "geerly" "clips/a.mp4" "geerly-cms-content" .ok (.ok ()) true
      rfl (by decide) (by decide)).2).1,
   ((c8_cache_hit_redirect ⟨some "/geerly/clips/a.mp4", none⟩ "/geerly/clips/a.mp4"
      "geerly" "clips/a.mp4" "geerly-cms-content" .ok (.ok ()) true
      rfl (by decide) (by decide)).2).2⟩

/-- C9 (amended): a non-numeric value for a numeric parameter is parsed by
parseInt to NaN, which the parser stores without error; because NaN is
falsy, a NaN quality is then treated exactly like an absent quality (the
default 80 applies) instead of producing a MalformedRequest error. -/
theorem c9_nan_silently_defaults (e : IOEvent) (s : String) (r : ParsedRequest)
    (img : SrcImg) (w h : Option JsNum)
    (hq : e.q = some s) (hs : s ≠ "") (hnan : jsParseInt s = .nan)
    (hr : parseRequest e = some r) :
    r.quality = some .nan ∧
    optimizeImage img w h (some .nan) = optimizeImage img w h none := by
  constructor
  · unfold parseRequest at hr
    cases hpa : parsePathA (e.proxyPath.getD "") with
    | none => rw [hpa] at hr; exact absurd hr (by simp)
    | some pr =>
      rw [hpa] at hr
      have hrq := (Option.some.inj hr).symm
      rw [hrq]
      simp [hq, optStrTruthy, hs, hnan]
  · rfl

/-- C9 witness: on a concrete request with quality string abc, the parsed
quality is NaN and the transform treats it as absent. -/
theorem c9_nan_silently_defaults_witness :
    (parseRequest ⟨some "cloudfront", some "geerly/pic.jpg", none, none, some "abc"⟩).map
        (fun r => r.quality) = some (some .nan) ∧
    optimizeImage ⟨some "jpeg", false⟩ none none (some .nan) =
      optimizeImage ⟨some "jpeg", false⟩ none none none := by
  have h := c9_nan_silently_defaults
    ⟨some "cloudfront", some "geerly/pic.jpg", none, none, some "abc"⟩ "abc"
    ⟨"geerly", "pic.jpg", none, none, some .nan⟩ ⟨some "jpeg", false⟩ none none
    rfl (by decide) (by decide) (by decide)
  exact ⟨by decide, h.2⟩

/-- C9 counterexample: a request whose quality parameter is the non-numeric
string abc is not rejected as malformed: the whole handler answers 200 with
the default quality 80 applied, not 400. -/
theorem c9_nonnumeric_not_rejected :
    (imageOptHandler none (.ok ⟨some "jpeg", false⟩)
      ⟨some "cloudfront", some "geerly/pic.jpg", none, none, some "abc"⟩).1.statusCode = 200 ∧
    (imageOptHandler none (.ok ⟨some "jpeg", false⟩)
      ⟨some "cloudfront", some "geerly/pic.jpg", none, none, some "abc"⟩).1.body =
      .base64Img "jpeg" (some 80) false ∧
    (imageOptHandler none (.ok ⟨some "jpeg", false⟩)
      ⟨some "cloudfront", some "geerly/pic.jpg", none, none, some "abc"⟩).1.statusCode ≠ 400 :=
  ⟨by decide, by decide, by decide⟩

/-- C10: every 200 response of the image-optimization handler carries the
constant Content-Type header image/jpeg, and on a png source the body is
the png-encoded artifact while the header still says image/jpeg, so the
header mis-labels non-jpeg bodies. -/
theorem c10_success_content_type_jpeg :
    (∀ (envTTL : Option String) (g : S3GetResult) (e : IOEvent),
      (imageOptHandler envTTL g e).1.statusCode = 200 →
      (imageOptHandler envTTL g e).1.contentType = some "image/jpeg") ∧
    ((imageOptHandler none (.ok ⟨some "png", false⟩)
        ⟨some "cloudfront", some "geerly/pic.png", none, none, none⟩).1.statusCode = 200 ∧
      (imageOptHandler none (.ok ⟨some "png", false⟩)
        ⟨some "cloudfront", some "geerly/pic.png", none, none, none⟩).1.body =
        .base64Img "png" (some 80) false ∧
      (imageOptHandler none (.ok ⟨some "png", false⟩)
        ⟨some "cloudfront", some "geerly/pic.png", none, none, none⟩).1.contentType =
        some "image/jpeg") := by
  constructor
  · intro envTTL g e
    unfold imageOptHandler
    repeat' split
    all_goals simp [mapErrorA_statusCode_ne]
  · exact ⟨by decide, by decide, by decide⟩

/-- C10 witness: the concrete png-source request is answered 200 with the
image/jpeg header. -/
theorem c10_success_content_type_jpeg_witness :
    (imageOptHandler none (.ok ⟨some "png", false⟩)
      ⟨some "cloudfront", some "geerly/pic.png", none, none, none⟩).1.contentType =
      some "image/jpeg" :=
  c10_success_content_type_jpeg.1 none (.ok ⟨some "png", false⟩)
    ⟨some "cloudfront", some "geerly/pic.png", none, none, none⟩ (by decide)

end ImageOpt
